import Mathlib

/-!
Shallow embedding of the FlowGen sequential image-generation pipeline
(src/App.tsx together with the types and service modules).

The React component `App` keeps three pieces of state: the ordered list of
steps, the single-flight flag `isProcessing`, and the flow-wide aspect
ratio.  The remote operations (`generateFlowImage`, `upscaleFlowImage`)
are opaque asynchronous calls; here they are modelled as oracle functions
returning `Except String String` (failure message or produced image), and
each state-changing handler is embedded as a pure function from the
application state (plus the oracle) to the new application state together
with the observable effects it performed (remote calls made, credential
selection triggered).

JavaScript truthiness of `string | null` values (`null` and `""` are
falsy) is modelled explicitly by `jsTruthy`, because the source guards
`if (step.imageBase64 ...)` use truthiness, not a null test.
-/

namespace FlowGen

/-- `FlowStatus` from src (types module): the five step states. -/
inductive FlowStatus where
  | IDLE
  | GENERATING
  | UPSCALING
  | COMPLETED
  | ERROR
deriving DecidableEq, Repr

/-- `AspectRatio` from src: the closed enumeration `'16:9' | '9:16'`. -/
inductive AspectRatio where
  | r16x9
  | r9x16
deriving DecidableEq, Repr

/-- `FlowStep` from src: one unit of the flow.  Optional TS fields
(`isUpscaled?`, `error?`) are `Option`s; `imageBase64 : string | null`
is an `Option String`. -/
structure FlowStep where
  id : String
  prompt : String
  status : FlowStatus
  imageBase64 : Option String
  isUpscaled : Option Bool := none
  error : Option String := none
deriving DecidableEq, Repr

/-- JavaScript truthiness of a `string | null` value: `null` and the
empty string are falsy, every other string is truthy. -/
def jsTruthy : Option String → Bool
  | none => false
  | some s => s ≠ ""

/-- JavaScript `String.prototype.trim`: drop whitespace characters from
both ends (structural recursion over the character list, so that the
kernel can evaluate it). -/
def jsTrim (s : String) : String :=
  ⟨((s.data.dropWhile Char.isWhitespace).reverse.dropWhile Char.isWhitespace).reverse⟩

/-- The state held by the `App` component: the step list, the
single-flight flag `isProcessing`, and the flow-wide aspect ratio. -/
structure AppState where
  steps : List FlowStep
  isProcessing : Bool
  aspectRatio : AspectRatio
deriving DecidableEq, Repr

/-- The initial component state: one empty `IDLE` step (with the id the
uuid generator produced) and aspect ratio `16:9`. -/
def initialState (id0 : String) : AppState :=
  { steps := [{ id := id0, prompt := "", status := FlowStatus.IDLE, imageBase64 := none }],
    isProcessing := false,
    aspectRatio := AspectRatio.r16x9 }

/-- `addStep` from src/App.tsx: append a fresh empty `IDLE` step with a
newly generated id. -/
def addStep (id : String) (st : AppState) : AppState :=
  { st with steps := st.steps ++ [{ id := id, prompt := "", status := FlowStatus.IDLE, imageBase64 := none }] }

/-- `removeStep` from src/App.tsx: refuse when at most one step remains,
otherwise drop the steps whose id matches. -/
def removeStep (id : String) (st : AppState) : AppState :=
  if st.steps.length ≤ 1 then st
  else { st with steps := st.steps.filter (fun s => s.id ≠ id) }

/-- `updatePrompt` from src/App.tsx: replace the prompt of the matching
step verbatim; nothing else changes. -/
def updatePrompt (id : String) (text : String) (st : AppState) : AppState :=
  { st with steps := st.steps.map (fun s => if s.id = id then { s with prompt := text } else s) }

/-- The arguments of one remote `generateFlowImage` call: prompt,
reference image, aspect ratio. -/
structure GenCall where
  prompt : String
  referenceImage : Option String
  aspectRatio : AspectRatio
deriving DecidableEq, Repr

/-- The observable outcome of one `generateImages` walk: the final step
list, the generate calls made (labelled with the loop index they were
made at), and—when the walk terminated on a generation failure—the index
it failed at together with the failure message. -/
structure WalkResult where
  steps : List FlowStep
  calls : List (Nat × GenCall)
  failed : Option (Nat × String)
deriving DecidableEq, Repr

/-- The oracle standing for the remote `generateFlowImage` operation:
given prompt, reference image and aspect ratio it either returns the
generated image or fails with a message. -/
def GenOracle : Type := String → Option String → AspectRatio → Except String String

/-- The `for` loop inside `generateImages` (src/App.tsx): walk the steps
in order from loop index `i`, carrying `previousImage`.
A step with empty/whitespace prompt is skipped (its image, when truthy,
becomes the new reference).  A `COMPLETED` step with a truthy image is
memoized: kept as is, its image becomes the reference.  Otherwise the
remote call is made: on success the step is overwritten with the result
(status `COMPLETED`, `isUpscaled := false`, error cleared by the
`GENERATING` update) and the walk continues with the new image as
reference; on failure the step is marked `ERROR` with the message and
the walk stops, returning the remaining steps untouched. -/
def runFlowLoop (gen : GenOracle) (ar : AspectRatio) (i : Nat)
    (previousImage : Option String) : List FlowStep → WalkResult
  | [] => { steps := [], calls := [], failed := none }
  | step :: rest =>
    if jsTrim step.prompt = "" then
      let prev := if jsTruthy step.imageBase64 then step.imageBase64 else previousImage
      let r := runFlowLoop gen ar (i + 1) prev rest
      { steps := step :: r.steps, calls := r.calls, failed := r.failed }
    else if jsTruthy step.imageBase64 = true ∧ step.status = FlowStatus.COMPLETED then
      let r := runFlowLoop gen ar (i + 1) step.imageBase64 rest
      { steps := step :: r.steps, calls := r.calls, failed := r.failed }
    else
      match gen step.prompt previousImage ar with
      | Except.ok img =>
        let r := runFlowLoop gen ar (i + 1) (some img) rest
        { steps := { step with status := FlowStatus.COMPLETED,
                               imageBase64 := some img,
                               isUpscaled := some false,
                               error := none } :: r.steps,
          calls := (i, { prompt := step.prompt, referenceImage := previousImage, aspectRatio := ar }) :: r.calls,
          failed := r.failed }
      | Except.error e =>
        { steps := { step with status := FlowStatus.ERROR, error := some e } :: rest,
          calls := [(i, { prompt := step.prompt, referenceImage := previousImage, aspectRatio := ar })],
          failed := some (i, e) }

/-- `generateImages` from src/App.tsx (the `runFlow` trigger): a no-op
while `isProcessing` is set; otherwise run the walk from the first step
with no reference image and clear the flag when it ends. -/
def generateImages (gen : GenOracle) (st : AppState) : AppState × List (Nat × GenCall) :=
  if st.isProcessing then (st, [])
  else
    let r := runFlowLoop gen st.aspectRatio 0 none st.steps
    ({ st with steps := r.steps, isProcessing := false }, r.calls)

/-- The oracle standing for the remote `upscaleFlowImage` operation:
given prompt, image and aspect ratio it either returns the upscaled
image or fails with a message (`"API_KEY_REQUIRED"` and
`"API_KEY_INVALID"` are the distinguished credential-class failures). -/
def UpsOracle : Type := String → String → AspectRatio → Except String String

/-- The observable effects of one `handleUpscale` call: the remote
upscale calls made (prompt, image, aspect ratio) and whether the
external credential-selection collaborator was invoked. -/
structure UpscaleEffects where
  upsCalls : List (String × String × AspectRatio)
  keySelectionCalled : Bool
deriving DecidableEq, Repr

/-- `handleUpscale` from src/App.tsx: refuse silently unless the target
step exists, holds a truthy image, and is not already `UPSCALING`.
Otherwise set the step to `UPSCALING`, call the remote upscale; on
success store the result with `isUpscaled := true` and status
`COMPLETED`; on a credential-class failure trigger credential selection
and revert status to `COMPLETED` only; on any other failure revert to
`COMPLETED` with a generic error message. -/
def handleUpscale (ups : UpsOracle) (id : String) (st : AppState) : AppState × UpscaleEffects :=
  match st.steps.find? (fun s => s.id == id) with
  | none => (st, { upsCalls := [], keySelectionCalled := false })
  | some step =>
    if jsTruthy step.imageBase64 = false ∨ step.status = FlowStatus.UPSCALING then
      (st, { upsCalls := [], keySelectionCalled := false })
    else
      let img := step.imageBase64.getD ""
      let steps1 := st.steps.map (fun s => if s.id == id then { s with status := FlowStatus.UPSCALING } else s)
      match ups step.prompt img st.aspectRatio with
      | Except.ok up =>
        ({ st with steps := steps1.map (fun s => if s.id == id then
              { s with status := FlowStatus.COMPLETED, imageBase64 := some up, isUpscaled := some true } else s) },
         { upsCalls := [(step.prompt, img, st.aspectRatio)], keySelectionCalled := false })
      | Except.error e =>
        if e = "API_KEY_REQUIRED" ∨ e = "API_KEY_INVALID" then
          ({ st with steps := steps1.map (fun s => if s.id == id then
                { s with status := FlowStatus.COMPLETED } else s) },
           { upsCalls := [(step.prompt, img, st.aspectRatio)], keySelectionCalled := true })
        else
          ({ st with steps := steps1.map (fun s => if s.id == id then
                { s with status := FlowStatus.COMPLETED, error := some "Upscale failed. Please try again." } else s) },
           { upsCalls := [(step.prompt, img, st.aspectRatio)], keySelectionCalled := false })

/-- The states reachable from the initial component state through the
user-triggered operations, each remote-operation oracle arbitrary.  The
`add` constructor records that the uuid generator never repeats an id
already present. -/
inductive Reachable : AppState → Prop where
  | init (id0 : String) : Reachable (initialState id0)
  | add {st : AppState} (id : String) (hfresh : ∀ s ∈ st.steps, s.id ≠ id) :
      Reachable st → Reachable (addStep id st)
  | remove {st : AppState} (id : String) : Reachable st → Reachable (removeStep id st)
  | edit {st : AppState} (id text : String) : Reachable st → Reachable (updatePrompt id text st)
  | run {st : AppState} (gen : GenOracle) : Reachable st → Reachable (generateImages gen st).1
  | upscale {st : AppState} (ups : UpsOracle) (id : String) :
      Reachable st → Reachable (handleUpscale ups id st).1
  | setRatio {st : AppState} (ar : AspectRatio) :
      Reachable st → Reachable { st with aspectRatio := ar }

/-! ### Helper lemmas -/

/-- Every step list arising in a reachable state keeps images only on
`COMPLETED` steps (JS-truthy images, that is). -/
def CompletedIfImage (steps : List FlowStep) : Prop :=
  ∀ s ∈ steps, jsTruthy s.imageBase64 = true → s.status = FlowStatus.COMPLETED

theorem runFlowLoop_ids (gen : GenOracle) (ar : AspectRatio) :
    ∀ (steps : List FlowStep) (i : Nat) (prev : Option String),
      ((runFlowLoop gen ar i prev steps).steps).map (fun s => s.id) = steps.map (fun s => s.id) := by
  intro steps
  induction steps with
  | nil => intro i prev; simp [runFlowLoop]
  | cons step rest ih =>
    intro i prev
    simp only [runFlowLoop]
    split
    · simp [ih]
    · split
      · simp [ih]
      · split
        · simp [ih]
        · simp

theorem runFlowLoop_calls_ge (gen : GenOracle) (ar : AspectRatio) :
    ∀ (steps : List FlowStep) (i : Nat) (prev : Option String),
      ∀ c ∈ (runFlowLoop gen ar i prev steps).calls, i ≤ c.1 := by
  intro steps
  induction steps with
  | nil => intro i prev c hc; simp [runFlowLoop] at hc
  | cons step rest ih =>
    intro i prev c hc
    simp only [runFlowLoop] at hc
    split at hc
    · exact le_trans (by omega) (ih (i + 1) _ c hc)
    · split at hc
      · exact le_trans (by omega) (ih (i + 1) _ c hc)
      · split at hc
        · simp only [List.mem_cons] at hc
          rcases hc with hc | hc
          · subst hc; exact le_refl i
          · exact le_trans (by omega) (ih (i + 1) _ c hc)
        · simp only [List.mem_singleton] at hc
          subst hc; exact le_refl i

theorem runFlowLoop_preserves_inv (gen : GenOracle) (ar : AspectRatio) :
    ∀ (steps : List FlowStep) (i : Nat) (prev : Option String),
      CompletedIfImage steps → CompletedIfImage (runFlowLoop gen ar i prev steps).steps := by
  intro steps
  induction steps with
  | nil => intro i prev _; intro s hs; simp [runFlowLoop] at hs
  | cons step rest ih =>
    intro i prev hinv
    have hhead := hinv step (List.mem_cons_self step rest)
    have htail : CompletedIfImage rest := fun s hs => hinv s (List.mem_cons_of_mem step hs)
    by_cases hblank : jsTrim step.prompt = ""
    · simp only [runFlowLoop, if_pos hblank]
      intro s hs
      simp only [List.mem_cons] at hs
      rcases hs with rfl | hs
      · exact hhead
      · exact ih (i + 1) _ htail s hs
    · by_cases hmemo : jsTruthy step.imageBase64 = true ∧ step.status = FlowStatus.COMPLETED
      · simp only [runFlowLoop, if_neg hblank, if_pos hmemo]
        intro s hs
        simp only [List.mem_cons] at hs
        rcases hs with rfl | hs
        · exact hhead
        · exact ih (i + 1) _ htail s hs
      · cases hgen : gen step.prompt prev ar with
        | ok img =>
          simp only [runFlowLoop, if_neg hblank, if_neg hmemo, hgen]
          intro s hs
          simp only [List.mem_cons] at hs
          rcases hs with rfl | hs
          · intro _; rfl
          · exact ih (i + 1) _ htail s hs
        | error e =>
          simp only [runFlowLoop, if_neg hblank, if_neg hmemo, hgen]
          intro s hs
          simp only [List.mem_cons] at hs
          rcases hs with rfl | hs
          · intro htr
            exact absurd ⟨htr, hhead htr⟩ hmemo
          · exact htail s hs

theorem find?_id_map (l : List FlowStep) (id : String) (f : FlowStep → FlowStep)
    (hf : ∀ s, (f s).id = s.id) :
    (l.map f).find? (fun s => s.id == id) = (l.find? (fun s => s.id == id)).map f := by
  induction l with
  | nil => simp
  | cons a l ih =>
    simp only [List.map_cons, List.find?]
    rw [hf a]
    by_cases h : (a.id == id) = true
    · simp [h]
    · simp only [Bool.not_eq_true] at h
      simp [h, ih]

theorem filter_ne_id_length (id : String) :
    ∀ (l : List FlowStep), ((l.map (fun s => s.id)).Nodup) →
      l.length - 1 ≤ (l.filter (fun s => s.id ≠ id)).length := by
  intro l
  induction l with
  | nil => simp
  | cons a l ih =>
    intro hnd
    simp only [List.map_cons, List.nodup_cons] at hnd
    obtain ⟨hnotin, hnd⟩ := hnd
    by_cases h : a.id = id
    · have hda : (decide (a.id ≠ id)) = false := by simp [h]
      have hfl : l.filter (fun s => s.id ≠ id) = l := by
        apply List.filter_eq_self.mpr
        intro s hs
        simp only [decide_eq_true_eq]
        intro hsid
        have hm : s.id ∈ List.map (fun s => s.id) l := List.mem_map_of_mem (fun s => s.id) hs
        rw [hsid, ← h] at hm
        exact hnotin hm
      simp only [List.filter_cons, hda, Bool.false_eq_true, if_false, hfl, List.length_cons]
      omega
    · have hda : (decide (a.id ≠ id)) = true := by simp [h]
      have := ih hnd
      simp only [List.filter_cons, hda, if_true, List.length_cons]
      omega

/-- The inductive invariant carried by every reachable state: step ids
are unique, at least one step exists, and only `COMPLETED` steps hold
(JS-truthy) images. -/
def GoodState (st : AppState) : Prop :=
  (st.steps.map (fun s => s.id)).Nodup ∧ 1 ≤ st.steps.length ∧ CompletedIfImage st.steps

theorem good_after_idmap (steps : List FlowStep) (f : FlowStep → FlowStep)
    (hf_id : ∀ s, (f s).id = s.id)
    (hf_inv : ∀ s ∈ steps, jsTruthy (f s).imageBase64 = true → (f s).status = FlowStatus.COMPLETED)
    (hnd : (steps.map (fun s => s.id)).Nodup) (hlen : 1 ≤ steps.length)
    (_hinv : CompletedIfImage steps) :
    ((steps.map f).map (fun s => s.id)).Nodup ∧ 1 ≤ (steps.map f).length ∧
      CompletedIfImage (steps.map f) := by
  refine ⟨?_, by simpa using hlen, ?_⟩
  · rw [List.map_map]
    have : (fun s => s.id) ∘ f = fun s => s.id := by
      funext s; exact hf_id s
    rw [this]
    exact hnd
  · intro s' hs'
    obtain ⟨s, hs, rfl⟩ := List.mem_map.mp hs'
    exact hf_inv s hs

theorem reachable_good {st : AppState} (h : Reachable st) : GoodState st := by
  induction h with
  | init id0 =>
    refine ⟨by simp [initialState], by simp [initialState], ?_⟩
    intro s hs
    simp only [initialState, List.mem_singleton] at hs
    subst hs
    simp [jsTruthy]
  | @add st0 id hfresh _ ih =>
    obtain ⟨hnd, hlen, hinv⟩ := ih
    refine ⟨?_, ?_, ?_⟩
    · simp only [addStep, List.map_append, List.map_cons, List.map_nil]
      rw [List.nodup_append]
      refine ⟨hnd, by simp, ?_⟩
      intro a ha hb
      simp only [List.mem_singleton] at hb
      subst hb
      obtain ⟨s, hs, rfl⟩ := List.mem_map.mp ha
      exact hfresh s hs rfl
    · simp only [addStep, List.length_append]
      omega
    · intro s hs
      simp only [addStep, List.mem_append, List.mem_singleton] at hs
      rcases hs with hs | rfl
      · exact hinv s hs
      · simp [jsTruthy]
  | @remove st0 id _ ih =>
    obtain ⟨hnd, hlen, hinv⟩ := ih
    by_cases hl : st0.steps.length ≤ 1
    · simpa [removeStep, hl] using ⟨hnd, hlen, hinv⟩
    · simp only [removeStep, if_neg hl]
      refine ⟨?_, ?_, ?_⟩
      · exact List.Nodup.sublist (List.Sublist.map _ (List.filter_sublist _)) hnd
      · have hge := filter_ne_id_length id st0.steps hnd
        have hl2 : 1 < st0.steps.length := Nat.lt_of_not_le hl
        show 1 ≤ (st0.steps.filter (fun s => s.id ≠ id)).length
        omega
      · intro s hs
        exact hinv s (List.mem_of_mem_filter hs)
  | @edit st0 id text _ ih =>
    obtain ⟨hnd, hlen, hinv⟩ := ih
    simp only [updatePrompt]
    refine good_after_idmap _ _ ?_ ?_ hnd hlen hinv
    · intro s
      by_cases hid : s.id = id <;> simp [hid]
    · intro s hs
      by_cases hid : s.id = id
      · rw [if_pos hid]
        exact hinv s hs
      · rw [if_neg hid]
        exact hinv s hs
  | @run st0 gen _ ih =>
    obtain ⟨hnd, hlen, hinv⟩ := ih
    by_cases hp : st0.isProcessing = true
    · simpa [generateImages, hp] using ⟨hnd, hlen, hinv⟩
    · simp only [Bool.not_eq_true] at hp
      simp only [generateImages, hp, Bool.false_eq_true, if_false]
      refine ⟨?_, ?_, ?_⟩
      · rw [runFlowLoop_ids]
        exact hnd
      · have hle := congrArg List.length (runFlowLoop_ids gen st0.aspectRatio st0.steps 0 none)
        simp only [List.length_map] at hle
        show 1 ≤ (runFlowLoop gen st0.aspectRatio 0 none st0.steps).steps.length
        omega
      · exact runFlowLoop_preserves_inv gen st0.aspectRatio st0.steps 0 none hinv
  | @upscale st0 ups id _ ih =>
    obtain ⟨hnd, hlen, hinv⟩ := ih
    cases hfind : st0.steps.find? (fun s => s.id == id) with
    | none => simpa [handleUpscale, hfind] using ⟨hnd, hlen, hinv⟩
    | some step =>
      by_cases hguard : jsTruthy step.imageBase64 = false ∨ step.status = FlowStatus.UPSCALING
      · simpa [handleUpscale, hfind, hguard] using ⟨hnd, hlen, hinv⟩
      · cases hups : ups step.prompt (step.imageBase64.getD "") st0.aspectRatio with
        | ok up =>
          simp only [handleUpscale, hfind, if_neg hguard, hups, List.map_map]
          refine good_after_idmap _ _ ?_ ?_ hnd hlen hinv
          · intro s
            simp only [Function.comp]
            by_cases hid : (s.id == id) = true <;> simp [hid]
          · intro s hs
            simp only [Function.comp]
            by_cases hid : (s.id == id) = true
            · simp [hid]
            · simp only [hid, Bool.false_eq_true, if_false]
              exact hinv s hs
        | error e =>
          by_cases hcred : e = "API_KEY_REQUIRED" ∨ e = "API_KEY_INVALID"
          · simp only [handleUpscale, hfind, if_neg hguard, hups, if_pos hcred, List.map_map]
            refine good_after_idmap _ _ ?_ ?_ hnd hlen hinv
            · intro s
              simp only [Function.comp]
              by_cases hid : (s.id == id) = true <;> simp [hid]
            · intro s hs
              simp only [Function.comp]
              by_cases hid : (s.id == id) = true
              · simp [hid]
              · simp only [hid, Bool.false_eq_true, if_false]
                exact hinv s hs
          · simp only [handleUpscale, hfind, if_neg hguard, hups, if_neg hcred, List.map_map]
            refine good_after_idmap _ _ ?_ ?_ hnd hlen hinv
            · intro s
              simp only [Function.comp]
              by_cases hid : (s.id == id) = true <;> simp [hid]
            · intro s hs
              simp only [Function.comp]
              by_cases hid : (s.id == id) = true
              · simp [hid]
              · simp only [hid, Bool.false_eq_true, if_false]
                exact hinv s hs
  | @setRatio st0 ar _ ih =>
    exact ih

/-- Where the walk fails, it marks exactly that step `ERROR` with the
message, leaves every later step untouched, and makes no call with a
later loop index. -/
theorem runFlowLoop_failed_spec (gen : GenOracle) (ar : AspectRatio) :
    ∀ (steps : List FlowStep) (i0 : Nat) (prev : Option String) (i : Nat) (e : String),
      (runFlowLoop gen ar i0 prev steps).failed = some (i, e) →
      i0 ≤ i ∧
      (∃ step, steps.get? (i - i0) = some step ∧
        (runFlowLoop gen ar i0 prev steps).steps.get? (i - i0) =
          some { step with status := FlowStatus.ERROR, error := some e }) ∧
      (∀ j, i - i0 < j → (runFlowLoop gen ar i0 prev steps).steps.get? j = steps.get? j) ∧
      (∀ c ∈ (runFlowLoop gen ar i0 prev steps).calls, c.1 ≤ i) := by
  intro steps
  induction steps with
  | nil => intro i0 prev i e h; simp [runFlowLoop] at h
  | cons step rest ih =>
    intro i0 prev i e h
    by_cases hblank : jsTrim step.prompt = ""
    · simp only [runFlowLoop, if_pos hblank] at h ⊢
      obtain ⟨h1, ⟨s, hs1, hs2⟩, h3, h4⟩ := ih (i0 + 1) _ i e h
      have hidx : i - i0 = (i - (i0 + 1)) + 1 := by omega
      refine ⟨by omega, ⟨s, ?_, ?_⟩, ?_, h4⟩
      · rw [hidx, List.get?_cons_succ]; exact hs1
      · rw [hidx, List.get?_cons_succ]; exact hs2
      · intro j hj
        cases j with
        | zero => omega
        | succ j' =>
          rw [List.get?_cons_succ, List.get?_cons_succ]
          exact h3 j' (by omega)
    · by_cases hmemo : jsTruthy step.imageBase64 = true ∧ step.status = FlowStatus.COMPLETED
      · simp only [runFlowLoop, if_neg hblank, if_pos hmemo] at h ⊢
        obtain ⟨h1, ⟨s, hs1, hs2⟩, h3, h4⟩ := ih (i0 + 1) _ i e h
        have hidx : i - i0 = (i - (i0 + 1)) + 1 := by omega
        refine ⟨by omega, ⟨s, ?_, ?_⟩, ?_, h4⟩
        · rw [hidx, List.get?_cons_succ]; exact hs1
        · rw [hidx, List.get?_cons_succ]; exact hs2
        · intro j hj
          cases j with
          | zero => omega
          | succ j' =>
            rw [List.get?_cons_succ, List.get?_cons_succ]
            exact h3 j' (by omega)
      · cases hgen : gen step.prompt prev ar with
        | ok img =>
          simp only [runFlowLoop, if_neg hblank, if_neg hmemo, hgen] at h ⊢
          obtain ⟨h1, ⟨s, hs1, hs2⟩, h3, h4⟩ := ih (i0 + 1) _ i e h
          have hidx : i - i0 = (i - (i0 + 1)) + 1 := by omega
          refine ⟨by omega, ⟨s, ?_, ?_⟩, ?_, ?_⟩
          · rw [hidx, List.get?_cons_succ]; exact hs1
          · rw [hidx, List.get?_cons_succ]; exact hs2
          · intro j hj
            cases j with
            | zero => omega
            | succ j' =>
              rw [List.get?_cons_succ, List.get?_cons_succ]
              exact h3 j' (by omega)
          · intro c hc
            simp only [List.mem_cons] at hc
            rcases hc with rfl | hc
            · simp; omega
            · exact h4 c hc
        | error e0 =>
          simp only [runFlowLoop, if_neg hblank, if_neg hmemo, hgen] at h ⊢
          have hie : i0 = i ∧ e0 = e := by
            have := h
            simp only [Option.some.injEq, Prod.mk.injEq] at this
            exact this
          obtain ⟨hi, he⟩ := hie
          have hidx : i - i0 = 0 := by omega
          refine ⟨by omega, ⟨step, ?_, ?_⟩, ?_, ?_⟩
          · rw [hidx]; rfl
          · rw [hidx, he]; rfl
          · intro j hj
            rw [hidx] at hj
            cases j with
            | zero => omega
            | succ j' => rw [List.get?_cons_succ, List.get?_cons_succ]
          · intro c hc
            simp only [List.mem_singleton] at hc
            subst hc
            simp; omega

/-- Claim C1: if the remote generate call fails at step `i` during a
`runFlow` walk, step `i` is marked `Error` with the failure description
in its `error` field, the walk terminates immediately, and every step
after `i` is untouched, with no remote call made at a later index. -/
theorem generation_error_halts_walk (gen : GenOracle) (st : AppState) (i : Nat) (e : String)
    (hp : st.isProcessing = false)
    (hfail : (runFlowLoop gen st.aspectRatio 0 none st.steps).failed = some (i, e)) :
    (∃ step, st.steps.get? i = some step ∧
      (generateImages gen st).1.steps.get? i =
        some { step with status := FlowStatus.ERROR, error := some e }) ∧
    (∀ j, i < j → (generateImages gen st).1.steps.get? j = st.steps.get? j) ∧
    (∀ c ∈ (generateImages gen st).2, c.1 ≤ i) := by
  obtain ⟨-, ⟨s, hs1, hs2⟩, h3, h4⟩ :=
    runFlowLoop_failed_spec gen st.aspectRatio st.steps 0 none i e hfail
  simp only [Nat.sub_zero] at hs1 hs2 h3
  have hps : (generateImages gen st).1.steps =
      (runFlowLoop gen st.aspectRatio 0 none st.steps).steps := by
    simp [generateImages, hp]
  have hcalls : (generateImages gen st).2 =
      (runFlowLoop gen st.aspectRatio 0 none st.steps).calls := by
    simp [generateImages, hp]
  rw [hps, hcalls]
  exact ⟨⟨s, hs1, hs2⟩, h3, h4⟩

/-- Witness for C1: a two-step flow whose first generate call fails with
"boom" ends with step 0 in `Error` and step 1 untouched. -/
theorem generation_error_halts_walk_witness :
    ({ steps := [{ id := "a", prompt := "p1", status := FlowStatus.IDLE, imageBase64 := none },
                 { id := "b", prompt := "p2", status := FlowStatus.IDLE, imageBase64 := none }],
       isProcessing := false, aspectRatio := AspectRatio.r16x9 } : AppState).isProcessing = false ∧
    (runFlowLoop (fun _ _ _ => Except.error "boom") AspectRatio.r16x9 0 none
        [{ id := "a", prompt := "p1", status := FlowStatus.IDLE, imageBase64 := none },
         { id := "b", prompt := "p2", status := FlowStatus.IDLE, imageBase64 := none }]).failed =
      some (0, "boom") ∧
    ((∃ step,
        ([{ id := "a", prompt := "p1", status := FlowStatus.IDLE, imageBase64 := none },
          { id := "b", prompt := "p2", status := FlowStatus.IDLE, imageBase64 := none }] :
            List FlowStep).get? 0 = some step ∧
        (generateImages (fun _ _ _ => Except.error "boom")
            { steps := [{ id := "a", prompt := "p1", status := FlowStatus.IDLE, imageBase64 := none },
                        { id := "b", prompt := "p2", status := FlowStatus.IDLE, imageBase64 := none }],
              isProcessing := false, aspectRatio := AspectRatio.r16x9 }).1.steps.get? 0 =
          some { step with status := FlowStatus.ERROR, error := some "boom" }) ∧
      (∀ j, 0 < j →
        (generateImages (fun _ _ _ => Except.error "boom")
            { steps := [{ id := "a", prompt := "p1", status := FlowStatus.IDLE, imageBase64 := none },
                        { id := "b", prompt := "p2", status := FlowStatus.IDLE, imageBase64 := none }],
              isProcessing := false, aspectRatio := AspectRatio.r16x9 }).1.steps.get? j =
          ([{ id := "a", prompt := "p1", status := FlowStatus.IDLE, imageBase64 := none },
            { id := "b", prompt := "p2", status := FlowStatus.IDLE, imageBase64 := none }] :
              List FlowStep).get? j) ∧
      (∀ c ∈ (generateImages (fun _ _ _ => Except.error "boom")
            { steps := [{ id := "a", prompt := "p1", status := FlowStatus.IDLE, imageBase64 := none },
                        { id := "b", prompt := "p2", status := FlowStatus.IDLE, imageBase64 := none }],
              isProcessing := false, aspectRatio := AspectRatio.r16x9 }).2, c.1 ≤ 0)) :=
  ⟨rfl, by decide,
    generation_error_halts_walk (fun _ _ _ => Except.error "boom")
      { steps := [{ id := "a", prompt := "p1", status := FlowStatus.IDLE, imageBase64 := none },
                  { id := "b", prompt := "p2", status := FlowStatus.IDLE, imageBase64 := none }],
        isProcessing := false, aspectRatio := AspectRatio.r16x9 } 0 "boom" rfl (by decide)⟩

/-- Counterexample to claim C2 as stated: a `COMPLETED` step whose image
is non-null but empty (`some ""`) is regenerated — its JS-falsy image
fails the memoization guard `step.imageBase64 && ...`, so the walk makes
a generate call for it and overwrites it. -/
theorem completed_nonnull_empty_image_regenerated :
    (generateImages (fun _ _ _ => Except.ok "X")
        { steps := [{ id := "a", prompt := "p", status := FlowStatus.COMPLETED, imageBase64 := some "" }],
          isProcessing := false, aspectRatio := AspectRatio.r16x9 }).2 =
      [(0, { prompt := "p", referenceImage := none, aspectRatio := AspectRatio.r16x9 })] ∧
    (generateImages (fun _ _ _ => Except.ok "X")
        { steps := [{ id := "a", prompt := "p", status := FlowStatus.COMPLETED, imageBase64 := some "" }],
          isProcessing := false, aspectRatio := AspectRatio.r16x9 }).1.steps =
      [{ id := "a", prompt := "p", status := FlowStatus.COMPLETED, imageBase64 := some "X",
         isUpscaled := some false, error := none }] := by
  constructor <;> decide

/-- Claim C2 (amended: the stored image must also be non-empty, since
the source guard uses JS truthiness): a `COMPLETED` step holding a
non-null, non-empty image is not regenerated and not modified by the
walk, no generate call is made at its position, and its stored image is
adopted as the `referenceImage` carried into the rest of the walk. -/
theorem completed_step_memoized (gen : GenOracle) (ar : AspectRatio) (i0 : Nat)
    (prev : Option String) (rest : List FlowStep) (s : FlowStep) (img : String)
    (hst : s.status = FlowStatus.COMPLETED) (him : s.imageBase64 = some img)
    (hne : img ≠ "") :
    runFlowLoop gen ar i0 prev (s :: rest) =
      { steps := s :: (runFlowLoop gen ar (i0 + 1) (some img) rest).steps,
        calls := (runFlowLoop gen ar (i0 + 1) (some img) rest).calls,
        failed := (runFlowLoop gen ar (i0 + 1) (some img) rest).failed } ∧
    (∀ c ∈ (runFlowLoop gen ar i0 prev (s :: rest)).calls, i0 + 1 ≤ c.1) := by
  have htr2 : jsTruthy (some img) = true := by
    simpa [jsTruthy] using hne
  by_cases hblank : jsTrim s.prompt = ""
  · have heq : runFlowLoop gen ar i0 prev (s :: rest) =
        { steps := s :: (runFlowLoop gen ar (i0 + 1) (some img) rest).steps,
          calls := (runFlowLoop gen ar (i0 + 1) (some img) rest).calls,
          failed := (runFlowLoop gen ar (i0 + 1) (some img) rest).failed } := by
      simp [runFlowLoop, hblank, him, htr2]
    refine ⟨heq, ?_⟩
    rw [heq]
    intro c hc
    exact runFlowLoop_calls_ge gen ar rest (i0 + 1) (some img) c hc
  · have heq : runFlowLoop gen ar i0 prev (s :: rest) =
        { steps := s :: (runFlowLoop gen ar (i0 + 1) (some img) rest).steps,
          calls := (runFlowLoop gen ar (i0 + 1) (some img) rest).calls,
          failed := (runFlowLoop gen ar (i0 + 1) (some img) rest).failed } := by
      simp [runFlowLoop, hblank, him, htr2, hst]
    refine ⟨heq, ?_⟩
    rw [heq]
    intro c hc
    exact runFlowLoop_calls_ge gen ar rest (i0 + 1) (some img) c hc

/-- Witness for C2 (amended): a completed step with image "A" is kept
verbatim and the next step generates with reference "A". -/
theorem completed_step_memoized_witness :
    ({ id := "a", prompt := "p", status := FlowStatus.COMPLETED,
       imageBase64 := some "A" } : FlowStep).status = FlowStatus.COMPLETED ∧
    (runFlowLoop (fun _ _ _ => Except.ok "B") AspectRatio.r16x9 0 none
        [{ id := "a", prompt := "p", status := FlowStatus.COMPLETED, imageBase64 := some "A" },
         { id := "b", prompt := "q", status := FlowStatus.IDLE, imageBase64 := none }] =
      { steps := ({ id := "a", prompt := "p", status := FlowStatus.COMPLETED,
                    imageBase64 := some "A" } : FlowStep) ::
          (runFlowLoop (fun _ _ _ => Except.ok "B") AspectRatio.r16x9 1 (some "A")
            [{ id := "b", prompt := "q", status := FlowStatus.IDLE, imageBase64 := none }]).steps,
        calls := (runFlowLoop (fun _ _ _ => Except.ok "B") AspectRatio.r16x9 1 (some "A")
            [{ id := "b", prompt := "q", status := FlowStatus.IDLE, imageBase64 := none }]).calls,
        failed := (runFlowLoop (fun _ _ _ => Except.ok "B") AspectRatio.r16x9 1 (some "A")
            [{ id := "b", prompt := "q", status := FlowStatus.IDLE, imageBase64 := none }]).failed } ∧
      ∀ c ∈ (runFlowLoop (fun _ _ _ => Except.ok "B") AspectRatio.r16x9 0 none
          [{ id := "a", prompt := "p", status := FlowStatus.COMPLETED, imageBase64 := some "A" },
           { id := "b", prompt := "q", status := FlowStatus.IDLE, imageBase64 := none }]).calls,
        0 + 1 ≤ c.1) :=
  ⟨rfl,
    completed_step_memoized (fun _ _ _ => Except.ok "B") AspectRatio.r16x9 0 none
      [{ id := "b", prompt := "q", status := FlowStatus.IDLE, imageBase64 := none }]
      { id := "a", prompt := "p", status := FlowStatus.COMPLETED, imageBase64 := some "A" }
      "A" rfl rfl (by decide)⟩

/-- Claim C3: a step with empty or whitespace-only prompt is skipped
without any remote call or mutation; when it holds a (truthy) image that
image becomes the new `referenceImage`, otherwise the reference is left
unchanged. -/
theorem empty_prompt_skipped (gen : GenOracle) (ar : AspectRatio) (i0 : Nat)
    (prev : Option String) (rest : List FlowStep) (s : FlowStep)
    (hblank : jsTrim s.prompt = "") :
    (jsTruthy s.imageBase64 = true →
      runFlowLoop gen ar i0 prev (s :: rest) =
        { steps := s :: (runFlowLoop gen ar (i0 + 1) s.imageBase64 rest).steps,
          calls := (runFlowLoop gen ar (i0 + 1) s.imageBase64 rest).calls,
          failed := (runFlowLoop gen ar (i0 + 1) s.imageBase64 rest).failed }) ∧
    (jsTruthy s.imageBase64 = false →
      runFlowLoop gen ar i0 prev (s :: rest) =
        { steps := s :: (runFlowLoop gen ar (i0 + 1) prev rest).steps,
          calls := (runFlowLoop gen ar (i0 + 1) prev rest).calls,
          failed := (runFlowLoop gen ar (i0 + 1) prev rest).failed }) ∧
    (∀ c ∈ (runFlowLoop gen ar i0 prev (s :: rest)).calls, i0 + 1 ≤ c.1) := by
  refine ⟨?_, ?_, ?_⟩
  · intro htr
    simp only [runFlowLoop, if_pos hblank, htr, if_true]
  · intro hfa
    simp only [runFlowLoop, if_pos hblank, hfa, Bool.false_eq_true, if_false]
  · intro c hc
    simp only [runFlowLoop, if_pos hblank] at hc
    exact runFlowLoop_calls_ge gen ar rest (i0 + 1) _ c hc

/-- Witness for C3: a blank-prompt step with image "A" propagates "A";
a blank-prompt step without image leaves the reference unchanged. -/
theorem empty_prompt_skipped_witness :
    jsTrim "  " = "" ∧
    ((jsTruthy (some "A") = true →
      runFlowLoop (fun _ _ _ => Except.ok "B") AspectRatio.r16x9 0 (some "P")
          [{ id := "a", prompt := "  ", status := FlowStatus.IDLE, imageBase64 := some "A" }] =
        { steps := ({ id := "a", prompt := "  ", status := FlowStatus.IDLE,
                      imageBase64 := some "A" } : FlowStep) ::
            (runFlowLoop (fun _ _ _ => Except.ok "B") AspectRatio.r16x9 1
              (({ id := "a", prompt := "  ", status := FlowStatus.IDLE,
                  imageBase64 := some "A" } : FlowStep)).imageBase64 []).steps,
          calls := (runFlowLoop (fun _ _ _ => Except.ok "B") AspectRatio.r16x9 1
              (({ id := "a", prompt := "  ", status := FlowStatus.IDLE,
                  imageBase64 := some "A" } : FlowStep)).imageBase64 []).calls,
          failed := (runFlowLoop (fun _ _ _ => Except.ok "B") AspectRatio.r16x9 1
              (({ id := "a", prompt := "  ", status := FlowStatus.IDLE,
                  imageBase64 := some "A" } : FlowStep)).imageBase64 []).failed }) ∧
    (jsTruthy (some "A") = false →
      runFlowLoop (fun _ _ _ => Except.ok "B") AspectRatio.r16x9 0 (some "P")
          [{ id := "a", prompt := "  ", status := FlowStatus.IDLE, imageBase64 := some "A" }] =
        { steps := ({ id := "a", prompt := "  ", status := FlowStatus.IDLE,
                      imageBase64 := some "A" } : FlowStep) ::
            (runFlowLoop (fun _ _ _ => Except.ok "B") AspectRatio.r16x9 1 (some "P") []).steps,
          calls := (runFlowLoop (fun _ _ _ => Except.ok "B") AspectRatio.r16x9 1 (some "P") []).calls,
          failed := (runFlowLoop (fun _ _ _ => Except.ok "B") AspectRatio.r16x9 1
              (some "P") []).failed }) ∧
    (∀ c ∈ (runFlowLoop (fun _ _ _ => Except.ok "B") AspectRatio.r16x9 0 (some "P")
        [{ id := "a", prompt := "  ", status := FlowStatus.IDLE,
           imageBase64 := some "A" }]).calls, 0 + 1 ≤ c.1)) :=
  ⟨by decide,
    empty_prompt_skipped (fun _ _ _ => Except.ok "B") AspectRatio.r16x9 0 (some "P") []
      { id := "a", prompt := "  ", status := FlowStatus.IDLE, imageBase64 := some "A" }
      (by decide)⟩

/-- Claim C10: when generation fails for a step, only its `status` (to
`Error`) and `error` fields change; `imageBase64` and `isUpscaled` keep
the values they held before the attempt. -/
theorem generation_failure_frame (gen : GenOracle) (ar : AspectRatio) (i0 : Nat)
    (prev : Option String) (rest : List FlowStep) (s : FlowStep) (e : String)
    (hprompt : jsTrim s.prompt ≠ "")
    (hmemo : ¬(jsTruthy s.imageBase64 = true ∧ s.status = FlowStatus.COMPLETED))
    (hgen : gen s.prompt prev ar = Except.error e) :
    (runFlowLoop gen ar i0 prev (s :: rest)).steps.head? =
      some { s with status := FlowStatus.ERROR, error := some e } ∧
    ({ s with status := FlowStatus.ERROR, error := some e }).imageBase64 = s.imageBase64 ∧
    ({ s with status := FlowStatus.ERROR, error := some e }).isUpscaled = s.isUpscaled := by
  refine ⟨?_, rfl, rfl⟩
  simp only [runFlowLoop, if_neg hprompt, if_neg hmemo, hgen, List.head?_cons]

/-- Witness for C10: a step holding image "OLD" and `isUpscaled = true`
keeps both through a failed regeneration attempt. -/
theorem generation_failure_frame_witness :
    jsTrim "p" ≠ "" ∧
    ¬(jsTruthy (some "OLD") = true ∧ FlowStatus.ERROR = FlowStatus.COMPLETED) ∧
    ((runFlowLoop (fun _ _ _ => Except.error "rate limited") AspectRatio.r16x9 0 none
        [{ id := "a", prompt := "p", status := FlowStatus.ERROR, imageBase64 := some "OLD",
           isUpscaled := some true, error := some "prior" }]).steps.head? =
      some { id := "a", prompt := "p", status := FlowStatus.ERROR, imageBase64 := some "OLD",
             isUpscaled := some true, error := some "rate limited" } ∧
    ({ id := "a", prompt := "p", status := FlowStatus.ERROR, imageBase64 := some "OLD",
       isUpscaled := some true, error := some "rate limited" } : FlowStep).imageBase64 =
      some "OLD" ∧
    ({ id := "a", prompt := "p", status := FlowStatus.ERROR, imageBase64 := some "OLD",
       isUpscaled := some true, error := some "rate limited" } : FlowStep).isUpscaled =
      some true) :=
  ⟨by decide, by decide,
    generation_failure_frame (fun _ _ _ => Except.error "rate limited") AspectRatio.r16x9 0 none
      []
      { id := "a", prompt := "p", status := FlowStatus.ERROR, imageBase64 := some "OLD",
        isUpscaled := some true, error := some "prior" }
      "rate limited" (by decide) (by decide) rfl⟩

/-- Claim C5: `runFlow` is single-flight — invoking it while a walk is
in progress is a no-op (state unchanged, no remote call), and a walk
that does start always ends with the in-progress flag cleared, whatever
the generate oracle does (success, failure, or any mix). -/
theorem runFlow_single_flight (gen : GenOracle) (st : AppState) :
    (st.isProcessing = true → generateImages gen st = (st, [])) ∧
    (st.isProcessing = false → (generateImages gen st).1.isProcessing = false) := by
  constructor
  · intro h
    simp [generateImages, h]
  · intro h
    simp [generateImages, h]

/-- Witness for C5: the no-op on a processing state, and the cleared
flag after a walk that fails. -/
theorem runFlow_single_flight_witness :
    generateImages (fun _ _ _ => Except.error "boom")
        { steps := [{ id := "a", prompt := "p", status := FlowStatus.IDLE, imageBase64 := none }],
          isProcessing := true, aspectRatio := AspectRatio.r16x9 } =
      ({ steps := [{ id := "a", prompt := "p", status := FlowStatus.IDLE, imageBase64 := none }],
         isProcessing := true, aspectRatio := AspectRatio.r16x9 }, []) ∧
    (generateImages (fun _ _ _ => Except.error "boom")
        { steps := [{ id := "a", prompt := "p", status := FlowStatus.IDLE, imageBase64 := none }],
          isProcessing := false, aspectRatio := AspectRatio.r16x9 }).1.isProcessing = false :=
  ⟨(runFlow_single_flight (fun _ _ _ => Except.error "boom")
      { steps := [{ id := "a", prompt := "p", status := FlowStatus.IDLE, imageBase64 := none }],
        isProcessing := true, aspectRatio := AspectRatio.r16x9 }).1 rfl,
   (runFlow_single_flight (fun _ _ _ => Except.error "boom")
      { steps := [{ id := "a", prompt := "p", status := FlowStatus.IDLE, imageBase64 := none }],
        isProcessing := false, aspectRatio := AspectRatio.r16x9 }).2 rfl⟩

/-- After a successful remote upscale, the target step carries the new
image with `isUpscaled := true` and status `COMPLETED`; exactly one
remote call was made and no credential selection happened. -/
theorem handleUpscale_ok_spec (ups : UpsOracle) (id : String) (st : AppState)
    (step : FlowStep) (up : String)
    (hfind : st.steps.find? (fun s => s.id == id) = some step)
    (hguard : ¬(jsTruthy step.imageBase64 = false ∨ step.status = FlowStatus.UPSCALING))
    (hok : ups step.prompt (step.imageBase64.getD "") st.aspectRatio = Except.ok up) :
    (handleUpscale ups id st).1.steps.find? (fun s => s.id == id) =
      some { step with
                 status := FlowStatus.COMPLETED, imageBase64 := some up,
                 isUpscaled := some true } ∧
    (handleUpscale ups id st).2 =
      { upsCalls := [(step.prompt, step.imageBase64.getD "", st.aspectRatio)],
        keySelectionCalled := false } := by
  have hpred : (step.id == id) = true := by simpa using List.find?_some hfind
  have hg1 : ∀ s : FlowStep,
      ((fun s => if s.id == id then { s with status := FlowStatus.UPSCALING } else s) s).id
        = s.id := by
    intro s
    by_cases h : (s.id == id) = true <;> simp [h]
  have hg2 : ∀ s : FlowStep,
      ((fun s => if s.id == id then { s with status := FlowStatus.COMPLETED, imageBase64 := some up, isUpscaled := some true } else s) s).id = s.id := by
    intro s
    by_cases h : (s.id == id) = true <;> simp [h]
  constructor
  · simp only [handleUpscale, hfind, if_neg hguard, hok]
    rw [find?_id_map _ id _ hg2, find?_id_map _ id _ hg1, hfind]
    have hpred2 : step.id = id := by simpa using hpred
    simp [hpred, hpred2]
  · simp only [handleUpscale, hfind, if_neg hguard, hok]

/-- After an upscale failure of the credential class, the target step is
reverted to `COMPLETED` with no other field touched, the credential
selector was invoked, and exactly one remote call was made. -/
theorem handleUpscale_cred_spec (ups : UpsOracle) (id : String) (st : AppState)
    (step : FlowStep) (e : String)
    (hfind : st.steps.find? (fun s => s.id == id) = some step)
    (hguard : ¬(jsTruthy step.imageBase64 = false ∨ step.status = FlowStatus.UPSCALING))
    (herr : ups step.prompt (step.imageBase64.getD "") st.aspectRatio = Except.error e)
    (hcred : e = "API_KEY_REQUIRED" ∨ e = "API_KEY_INVALID") :
    (handleUpscale ups id st).1.steps.find? (fun s => s.id == id) =
      some { step with status := FlowStatus.COMPLETED } ∧
    (handleUpscale ups id st).2 =
      { upsCalls := [(step.prompt, step.imageBase64.getD "", st.aspectRatio)],
        keySelectionCalled := true } := by
  have hpred : (step.id == id) = true := by simpa using List.find?_some hfind
  have hg1 : ∀ s : FlowStep,
      ((fun s => if s.id == id then { s with status := FlowStatus.UPSCALING } else s) s).id
        = s.id := by
    intro s
    by_cases h : (s.id == id) = true <;> simp [h]
  have hg2 : ∀ s : FlowStep,
      ((fun s => if s.id == id then { s with status := FlowStatus.COMPLETED } else s) s).id
        = s.id := by
    intro s
    by_cases h : (s.id == id) = true <;> simp [h]
  constructor
  · simp only [handleUpscale, hfind, if_neg hguard, herr, if_pos hcred]
    rw [find?_id_map _ id _ hg2, find?_id_map _ id _ hg1, hfind]
    have hpred2 : step.id = id := by simpa using hpred
    simp [hpred, hpred2]
  · simp only [handleUpscale, hfind, if_neg hguard, herr, if_pos hcred]

/-- After any other upscale failure, the target step is reverted to
`COMPLETED` with the generic error message recorded and its image kept,
and no credential selection happened. -/
theorem handleUpscale_err_spec (ups : UpsOracle) (id : String) (st : AppState)
    (step : FlowStep) (e : String)
    (hfind : st.steps.find? (fun s => s.id == id) = some step)
    (hguard : ¬(jsTruthy step.imageBase64 = false ∨ step.status = FlowStatus.UPSCALING))
    (herr : ups step.prompt (step.imageBase64.getD "") st.aspectRatio = Except.error e)
    (hcred : ¬(e = "API_KEY_REQUIRED" ∨ e = "API_KEY_INVALID")) :
    (handleUpscale ups id st).1.steps.find? (fun s => s.id == id) =
      some { step with
                 status := FlowStatus.COMPLETED,
                 error := some "Upscale failed. Please try again." } ∧
    (handleUpscale ups id st).2 =
      { upsCalls := [(step.prompt, step.imageBase64.getD "", st.aspectRatio)],
        keySelectionCalled := false } := by
  have hpred : (step.id == id) = true := by simpa using List.find?_some hfind
  have hg1 : ∀ s : FlowStep,
      ((fun s => if s.id == id then { s with status := FlowStatus.UPSCALING } else s) s).id
        = s.id := by
    intro s
    by_cases h : (s.id == id) = true <;> simp [h]
  have hg2 : ∀ s : FlowStep,
      ((fun s => if s.id == id then { s with status := FlowStatus.COMPLETED, error := some "Upscale failed. Please try again." } else s) s).id = s.id := by
    intro s
    by_cases h : (s.id == id) = true <;> simp [h]
  constructor
  · simp only [handleUpscale, hfind, if_neg hguard, herr, if_neg hcred]
    rw [find?_id_map _ id _ hg2, find?_id_map _ id _ hg1, hfind]
    have hpred2 : step.id = id := by simpa using hpred
    simp [hpred, hpred2]
  · simp only [handleUpscale, hfind, if_neg hguard, herr, if_neg hcred]

/-- Claim C6: an upscale failure classified as credential-class
(`API_KEY_REQUIRED` or `API_KEY_INVALID`) triggers the external
credential-selection call and reverts the step's status to `Completed`
while leaving its image, error and isUpscaled fields exactly as they
were, with exactly one remote call (no automatic retry). -/
theorem upscale_credential_failure_recovery (ups : UpsOracle) (id : String) (st : AppState)
    (step : FlowStep) (e : String)
    (hfind : st.steps.find? (fun s => s.id == id) = some step)
    (hguard : ¬(jsTruthy step.imageBase64 = false ∨ step.status = FlowStatus.UPSCALING))
    (herr : ups step.prompt (step.imageBase64.getD "") st.aspectRatio = Except.error e)
    (hcred : e = "API_KEY_REQUIRED" ∨ e = "API_KEY_INVALID") :
    (handleUpscale ups id st).2.keySelectionCalled = true ∧
    (handleUpscale ups id st).2.upsCalls =
      [(step.prompt, step.imageBase64.getD "", st.aspectRatio)] ∧
    (handleUpscale ups id st).1.steps.find? (fun s => s.id == id) =
      some { step with status := FlowStatus.COMPLETED } ∧
    ({ step with status := FlowStatus.COMPLETED }).imageBase64 = step.imageBase64 ∧
    ({ step with status := FlowStatus.COMPLETED }).error = step.error ∧
    ({ step with status := FlowStatus.COMPLETED }).isUpscaled = step.isUpscaled := by
  obtain ⟨hf, heff⟩ := handleUpscale_cred_spec ups id st step e hfind hguard herr hcred
  rw [heff]
  exact ⟨rfl, rfl, hf, rfl, rfl, rfl⟩

/-- Witness for C6: a credential-class failure on a completed step
with image "IMG" and stale error "old" keeps both and triggers the
credential selector. -/
theorem upscale_credential_failure_recovery_witness :
    (([{ id := "a", prompt := "p", status := FlowStatus.COMPLETED, imageBase64 := some "IMG",
         isUpscaled := some false, error := some "old" }] : List FlowStep).find?
        (fun s => s.id == "a") =
      some { id := "a", prompt := "p", status := FlowStatus.COMPLETED, imageBase64 := some "IMG",
             isUpscaled := some false, error := some "old" }) ∧
    ((handleUpscale (fun _ _ _ => Except.error "API_KEY_REQUIRED") "a"
        { steps := [{ id := "a", prompt := "p", status := FlowStatus.COMPLETED,
                      imageBase64 := some "IMG", isUpscaled := some false, error := some "old" }],
          isProcessing := false, aspectRatio := AspectRatio.r16x9 }).2.keySelectionCalled = true ∧
    (handleUpscale (fun _ _ _ => Except.error "API_KEY_REQUIRED") "a"
        { steps := [{ id := "a", prompt := "p", status := FlowStatus.COMPLETED,
                      imageBase64 := some "IMG", isUpscaled := some false, error := some "old" }],
          isProcessing := false, aspectRatio := AspectRatio.r16x9 }).2.upsCalls =
      [("p", "IMG", AspectRatio.r16x9)] ∧
    (handleUpscale (fun _ _ _ => Except.error "API_KEY_REQUIRED") "a"
        { steps := [{ id := "a", prompt := "p", status := FlowStatus.COMPLETED,
                      imageBase64 := some "IMG", isUpscaled := some false, error := some "old" }],
          isProcessing := false, aspectRatio := AspectRatio.r16x9 }).1.steps.find?
        (fun s => s.id == "a") =
      some { id := "a", prompt := "p", status := FlowStatus.COMPLETED, imageBase64 := some "IMG",
             isUpscaled := some false, error := some "old" }) := by
  constructor
  · decide
  · have h := upscale_credential_failure_recovery
      (fun _ _ _ => Except.error "API_KEY_REQUIRED") "a"
      { steps := [{ id := "a", prompt := "p", status := FlowStatus.COMPLETED,
                    imageBase64 := some "IMG", isUpscaled := some false, error := some "old" }],
        isProcessing := false, aspectRatio := AspectRatio.r16x9 }
      { id := "a", prompt := "p", status := FlowStatus.COMPLETED, imageBase64 := some "IMG",
        isUpscaled := some false, error := some "old" }
      "API_KEY_REQUIRED" (by decide) (by decide) rfl (Or.inl rfl)
    exact ⟨h.1, h.2.1, h.2.2.1⟩

/-- Claim C7: `upscale(id)` is silently refused — state unchanged and no
effect — when the id names no step, when the step's image is null, or
when the step is already `Upscaling`. -/
theorem upscale_silently_refused (ups : UpsOracle) (id : String) (st : AppState)
    (h : st.steps.find? (fun s => s.id == id) = none ∨
      ∃ step, st.steps.find? (fun s => s.id == id) = some step ∧
        (step.imageBase64 = none ∨ step.status = FlowStatus.UPSCALING)) :
    handleUpscale ups id st = (st, { upsCalls := [], keySelectionCalled := false }) := by
  rcases h with h | ⟨step, hfind, hcase⟩
  · simp [handleUpscale, h]
  · rcases hcase with hnone | hup
    · have hfalse : jsTruthy step.imageBase64 = false := by rw [hnone]; rfl
      simp [handleUpscale, hfind, hfalse]
    · simp [handleUpscale, hfind, hup]

/-- Witness for C7: upscaling a non-existent id leaves the state
untouched and performs no effect. -/
theorem upscale_silently_refused_witness :
    (([{ id := "a", prompt := "p", status := FlowStatus.COMPLETED,
         imageBase64 := some "IMG" }] : List FlowStep).find? (fun s => s.id == "zzz") = none) ∧
    handleUpscale (fun _ _ _ => Except.ok "BIG") "zzz"
        { steps := [{ id := "a", prompt := "p", status := FlowStatus.COMPLETED,
                      imageBase64 := some "IMG" }],
          isProcessing := false, aspectRatio := AspectRatio.r16x9 } =
      ({ steps := [{ id := "a", prompt := "p", status := FlowStatus.COMPLETED,
                     imageBase64 := some "IMG" }],
         isProcessing := false, aspectRatio := AspectRatio.r16x9 },
       { upsCalls := [], keySelectionCalled := false }) :=
  ⟨by decide,
    upscale_silently_refused (fun _ _ _ => Except.ok "BIG") "zzz"
      { steps := [{ id := "a", prompt := "p", status := FlowStatus.COMPLETED,
                    imageBase64 := some "IMG" }],
        isProcessing := false, aspectRatio := AspectRatio.r16x9 }
      (Or.inl (by decide))⟩

/-- Claim C9: a successful upscale sets status `Completed`, stores the
upscaled image, sets `isUpscaled := true`, and leaves the step's `error`
field unchanged — a stale error from an earlier failed attempt is not
cleared. -/
theorem upscale_success_keeps_stale_error (ups : UpsOracle) (id : String) (st : AppState)
    (step : FlowStep) (up : String)
    (hfind : st.steps.find? (fun s => s.id == id) = some step)
    (hguard : ¬(jsTruthy step.imageBase64 = false ∨ step.status = FlowStatus.UPSCALING))
    (hok : ups step.prompt (step.imageBase64.getD "") st.aspectRatio = Except.ok up) :
    (handleUpscale ups id st).1.steps.find? (fun s => s.id == id) =
      some { step with
                 status := FlowStatus.COMPLETED, imageBase64 := some up,
                 isUpscaled := some true } ∧
    ({ step with
           status := FlowStatus.COMPLETED, imageBase64 := some up,
           isUpscaled := some true }).error = step.error := by
  obtain ⟨hf, -⟩ := handleUpscale_ok_spec ups id st step up hfind hguard hok
  exact ⟨hf, rfl⟩

/-- Witness for C9: a successful upscale of a step carrying the stale
error "old" keeps that error in place. -/
theorem upscale_success_keeps_stale_error_witness :
    (([{ id := "a", prompt := "p", status := FlowStatus.COMPLETED, imageBase64 := some "IMG",
         isUpscaled := some false, error := some "old" }] : List FlowStep).find?
        (fun s => s.id == "a") =
      some { id := "a", prompt := "p", status := FlowStatus.COMPLETED, imageBase64 := some "IMG",
             isUpscaled := some false, error := some "old" }) ∧
    ((handleUpscale (fun _ _ _ => Except.ok "BIG") "a"
        { steps := [{ id := "a", prompt := "p", status := FlowStatus.COMPLETED,
                      imageBase64 := some "IMG", isUpscaled := some false, error := some "old" }],
          isProcessing := false, aspectRatio := AspectRatio.r16x9 }).1.steps.find?
        (fun s => s.id == "a") =
      some { id := "a", prompt := "p", status := FlowStatus.COMPLETED, imageBase64 := some "BIG",
             isUpscaled := some true, error := some "old" }) := by
  constructor
  · decide
  · have h := upscale_success_keeps_stale_error (fun _ _ _ => Except.ok "BIG") "a"
      { steps := [{ id := "a", prompt := "p", status := FlowStatus.COMPLETED,
                    imageBase64 := some "IMG", isUpscaled := some false, error := some "old" }],
        isProcessing := false, aspectRatio := AspectRatio.r16x9 }
      { id := "a", prompt := "p", status := FlowStatus.COMPLETED, imageBase64 := some "IMG",
        isUpscaled := some false, error := some "old" }
      "BIG" (by decide) (by decide) rfl
    exact h.1

/-- A demonstration generate oracle that always succeeds with "IMG". -/
def demoGen : GenOracle := fun _ _ _ => Except.ok "IMG"

/-- Claim C4: in every reachable state, a step passes the upscale guard
(and so enters `Upscaling`) only while its status is `Completed`, and
whatever the upscale oracle answers (success or either class of
failure), the step's status after the call is `Completed`, never
`Error`. -/
theorem upscaling_only_from_completed {st : AppState} (h : Reachable st)
    (ups : UpsOracle) (id : String) (step : FlowStep)
    (hfind : st.steps.find? (fun s => s.id == id) = some step)
    (himg : jsTruthy step.imageBase64 = true)
    (hns : step.status ≠ FlowStatus.UPSCALING) :
    step.status = FlowStatus.COMPLETED ∧
    ∃ step2, (handleUpscale ups id st).1.steps.find? (fun s => s.id == id) = some step2 ∧
      step2.status = FlowStatus.COMPLETED := by
  obtain ⟨-, -, hinv⟩ := reachable_good h
  have hcomp := hinv step (List.mem_of_find?_eq_some hfind) himg
  refine ⟨hcomp, ?_⟩
  have hguard : ¬(jsTruthy step.imageBase64 = false ∨ step.status = FlowStatus.UPSCALING) := by
    rintro (hfalse | hup)
    · rw [himg] at hfalse
      exact Bool.noConfusion hfalse
    · exact hns hup
  cases hok : ups step.prompt (step.imageBase64.getD "") st.aspectRatio with
  | ok up =>
    obtain ⟨hf, -⟩ := handleUpscale_ok_spec ups id st step up hfind hguard hok
    exact ⟨_, hf, rfl⟩
  | error e =>
    by_cases hcred : e = "API_KEY_REQUIRED" ∨ e = "API_KEY_INVALID"
    · obtain ⟨hf, -⟩ := handleUpscale_cred_spec ups id st step e hfind hguard hok hcred
      exact ⟨_, hf, rfl⟩
    · obtain ⟨hf, -⟩ := handleUpscale_err_spec ups id st step e hfind hguard hok hcred
      exact ⟨_, hf, rfl⟩

/-- Witness for C4: a reachable state (edit the initial step's prompt,
then run the flow successfully) holds a completed step with an image;
the guard passes with status `Completed`, and after an upscale attempt
that fails generically the step is back at `Completed`. -/
theorem upscaling_only_from_completed_witness :
    ((generateImages demoGen (updatePrompt "a" "cat" (initialState "a"))).1.steps.find?
        (fun s => s.id == "a") =
      some { id := "a", prompt := "cat", status := FlowStatus.COMPLETED,
             imageBase64 := some "IMG", isUpscaled := some false, error := none }) ∧
    jsTruthy (some "IMG") = true ∧
    (({ id := "a", prompt := "cat", status := FlowStatus.COMPLETED, imageBase64 := some "IMG",
        isUpscaled := some false, error := none } : FlowStep).status ≠ FlowStatus.UPSCALING) ∧
    (({ id := "a", prompt := "cat", status := FlowStatus.COMPLETED, imageBase64 := some "IMG",
        isUpscaled := some false, error := none } : FlowStep).status = FlowStatus.COMPLETED ∧
     ∃ step2, (handleUpscale (fun _ _ _ => Except.error "down") "a"
         (generateImages demoGen (updatePrompt "a" "cat" (initialState "a"))).1).1.steps.find?
           (fun s => s.id == "a") = some step2 ∧
       step2.status = FlowStatus.COMPLETED) :=
  ⟨by decide, by decide, by decide,
    upscaling_only_from_completed
      (Reachable.run demoGen (Reachable.edit "a" "cat" (Reachable.init "a")))
      (fun _ _ _ => Except.error "down") "a"
      { id := "a", prompt := "cat", status := FlowStatus.COMPLETED, imageBase64 := some "IMG",
        isUpscaled := some false, error := none }
      (by decide) (by decide) (by decide)⟩

/-- Claim C8: every reachable state has at least one step: the initial
state has one, `addStep` grows the list by one, and `removeStep` is a
no-op when only one step remains. -/
theorem flow_never_empty {st : AppState} (h : Reachable st) (id id0 : String) :
    1 ≤ st.steps.length ∧
    (initialState id0).steps.length = 1 ∧
    (addStep id st).steps.length = st.steps.length + 1 ∧
    (st.steps.length = 1 → removeStep id st = st) := by
  obtain ⟨-, hlen, -⟩ := reachable_good h
  refine ⟨hlen, rfl, by simp [addStep], ?_⟩
  intro h1
  simp [removeStep, h1]

/-- Witness for C8: the initial state has one step and removing it is
refused. -/
theorem flow_never_empty_witness :
    1 ≤ (initialState "a").steps.length ∧
    (initialState "c").steps.length = 1 ∧
    (addStep "b" (initialState "a")).steps.length = (initialState "a").steps.length + 1 ∧
    ((initialState "a").steps.length = 1 → removeStep "b" (initialState "a") = initialState "a") :=
  flow_never_empty (Reachable.init "a") "b" "c"

end FlowGen
